import Mathlib

/-
  Verification development for the phone-number user-lookup utility
  (src/config/search.js). The JavaScript module is embedded shallowly:
  the remote SDK call admin.auth().getUserByPhoneNumber is an oracle
  parameter `lookup`; JavaScript exceptions are the Except monad; a
  thrown Error object is a JsError carrying its message and an optional
  `code` field (plain Error objects built with `new Error(msg)` have no
  code, so their code is none; Firebase SDK errors carry a code string).
-/

namespace FirebaseSearch

/-- JavaScript values that can be passed as the phoneNumber argument.
The module checks truthiness and typeof, so the embedding keeps enough
of the JavaScript value universe to distinguish those checks. -/
inductive JSValue where
  | str (s : String)
  | num (n : Int)
  | boolean (b : Bool)
  | jsNull
  | undefined
deriving DecidableEq, Repr

/-- Decidable equality on Except, so that concrete runs of the embedded
functions can be checked by evaluation. -/
instance {α β : Type} [DecidableEq α] [DecidableEq β] :
    DecidableEq (Except α β) := fun a b =>
  match a, b with
  | Except.ok x, Except.ok y =>
      if h : x = y then Decidable.isTrue (by rw [h])
      else Decidable.isFalse (by simp [h])
  | Except.error x, Except.error y =>
      if h : x = y then Decidable.isTrue (by rw [h])
      else Decidable.isFalse (by simp [h])
  | Except.ok _, Except.error _ => Decidable.isFalse (by simp)
  | Except.error _, Except.ok _ => Decidable.isFalse (by simp)

/-- A thrown JavaScript Error: message plus the optional code field that
Firebase errors carry and plain Error objects lack. -/
structure JsError where
  message : String
  code : Option String
deriving DecidableEq, Repr

/-- UserRecord.metadata as read by the module (creationTime,
lastSignInTime, lastRefreshTime). -/
structure UserMetadata where
  creationTime : Option String
  lastSignInTime : Option String
  lastRefreshTime : Option String
deriving DecidableEq, Repr

/-- One element of UserRecord.providerData; the module reads exactly
these six fields. -/
structure ProviderInfo where
  uid : Option String
  displayName : Option String
  email : Option String
  phoneNumber : Option String
  photoURL : Option String
  providerId : Option String
deriving DecidableEq, Repr

/-- The SDK user record, restricted to the fields the module reads.
customClaims is Option to model the absent / null / undefined cases
that make `userRecord.customClaims || \x7b\x7d` fall to the default. -/
structure UserRecord where
  uid : String
  email : Option String
  phoneNumber : Option String
  displayName : Option String
  photoURL : Option String
  emailVerified : Bool
  disabled : Bool
  metadata : UserMetadata
  customClaims : Option (List (String × String))
  providerData : List ProviderInfo
deriving DecidableEq, Repr

/-- Error thrown by line 17 of search.js. -/
def errNotNonEmptyString : JsError :=
  { message := "Phone number must be a non-empty string", code := none }

/-- Error thrown by line 22 of search.js. -/
def errNotE164 : JsError :=
  { message := "Phone number must be in E.164 format (e.g., +1234567890)", code := none }

/-- The one error code the module recognises (line 41). -/
def userNotFoundCode : String := "auth/user-not-found"

/-- The E.164 check of line 21: phoneNumber.startsWith with the
one-character argument + holds exactly when the first character of the
string is +. -/
def startsWithPlus (s : String) : Bool :=
  match s.data with
  | [] => false
  | c :: _ => c == '+'

/-- Body of the try block of findUserByPhoneNumber (lines 14-39).
The JavaScript guard `!phoneNumber || typeof phoneNumber !== 'string'`
throws for every non-string value (falsy ones via the first disjunct,
truthy ones via the typeof test) and for the empty string; a non-empty
string passes it. The second guard rejects strings without a leading +.
Otherwise the remote lookup is awaited and its record returned. -/
def findUserByPhoneNumberAttempt (lookup : String → Except JsError UserRecord) :
    JSValue → Except JsError UserRecord
  | JSValue.str s =>
      if s = "" then Except.error errNotNonEmptyString
      else if ¬ startsWithPlus s then Except.error errNotE164
      else lookup s
  | _ => Except.error errNotNonEmptyString

/-- The catch block of findUserByPhoneNumber (lines 40-48): an error
whose code is auth/user-not-found becomes a null result; every other
error is re-thrown unchanged; a record resolves to itself. -/
def catchUserNotFound : Except JsError UserRecord → Except JsError (Option UserRecord) :=
  fun r =>
    match r with
    | Except.ok u => Except.ok (some u)
    | Except.error e =>
        if e.code = some userNotFoundCode then Except.ok none else Except.error e

/-- findUserByPhoneNumber (lines 13-49): validate, look up, catch the
not-found code. -/
def findUserByPhoneNumber (lookup : String → Except JsError UserRecord)
    (phoneNumber : JSValue) : Except JsError (Option UserRecord) :=
  catchUserNotFound (findUserByPhoneNumberAttempt lookup phoneNumber)

/-- Result object of findUsersByPhoneNumbers (line 74). -/
structure BatchResult where
  found : List UserRecord
  notFound : List JSValue
deriving DecidableEq, Repr

/-- findUsersByPhoneNumbers (lines 56-75): a sequential loop; a found
user is pushed to found, a null result pushes the phone number to
notFound, and the catch block (lines 68-71) pushes the phone number of
any erroring lookup to notFound as well. -/
def findUsersByPhoneNumbers (lookup : String → Except JsError UserRecord) :
    List JSValue → BatchResult
  | [] => { found := [], notFound := [] }
  | pn :: rest =>
      let r := findUsersByPhoneNumbers lookup rest
      match findUserByPhoneNumber lookup pn with
      | Except.ok (some u) => { found := u :: r.found, notFound := r.notFound }
      | Except.ok none => { found := r.found, notFound := pn :: r.notFound }
      | Except.error _ => { found := r.found, notFound := pn :: r.notFound }

/-- The plain object returned by getUserDetailsByPhoneNumber
(lines 91-113). -/
structure UserDetails where
  uid : String
  email : Option String
  phoneNumber : Option String
  displayName : Option String
  photoURL : Option String
  emailVerified : Bool
  disabled : Bool
  metadata : UserMetadata
  customClaims : List (String × String)
  providerData : List ProviderInfo
deriving DecidableEq, Repr

/-- The response-shaping expression of lines 91-113: copy each field,
default customClaims with || \x7b\x7d, and map providerData element-wise
to a fresh object with the same six fields. -/
def shapeUserDetails (userRecord : UserRecord) : UserDetails :=
  { uid := userRecord.uid
    email := userRecord.email
    phoneNumber := userRecord.phoneNumber
    displayName := userRecord.displayName
    photoURL := userRecord.photoURL
    emailVerified := userRecord.emailVerified
    disabled := userRecord.disabled
    metadata :=
      { creationTime := userRecord.metadata.creationTime
        lastSignInTime := userRecord.metadata.lastSignInTime
        lastRefreshTime := userRecord.metadata.lastRefreshTime }
    customClaims := userRecord.customClaims.getD []
    providerData := userRecord.providerData.map (fun provider =>
      { uid := provider.uid
        displayName := provider.displayName
        email := provider.email
        phoneNumber := provider.phoneNumber
        photoURL := provider.photoURL
        providerId := provider.providerId }) }

/-- getUserDetailsByPhoneNumber (lines 82-118): delegate to
findUserByPhoneNumber, return null on null, shape the record otherwise;
the catch block (lines 114-117) logs and re-throws unchanged. -/
def getUserDetailsByPhoneNumber (lookup : String → Except JsError UserRecord)
    (phoneNumber : JSValue) : Except JsError (Option UserDetails) :=
  match findUserByPhoneNumber lookup phoneNumber with
  | Except.error e => Except.error e
  | Except.ok none => Except.ok none
  | Except.ok (some userRecord) => Except.ok (some (shapeUserDetails userRecord))

/-- Outcome of the CLI block (lines 128-157). -/
inductive CliOutcome where
  | usage
  | success
  | notFoundExit
  | errorExit
deriving DecidableEq, Repr

/-- Exit status of each CLI outcome: usage, a null result and an error
all call process.exit(1); the success branch falls through to a normal
exit. -/
def cliExitCode : CliOutcome → Nat
  | CliOutcome.usage => 1
  | CliOutcome.success => 0
  | CliOutcome.notFoundExit => 1
  | CliOutcome.errorExit => 1

/-- The CLI block (lines 128-157): read process.argv[2] (none when the
argument is missing), print usage and exit 1 when it is falsy, else run
findUserByPhoneNumber and dispatch on its outcome. -/
def runCli (lookup : String → Except JsError UserRecord)
    (argv2 : Option String) : CliOutcome :=
  match argv2 with
  | none => CliOutcome.usage
  | some s =>
      if s = "" then CliOutcome.usage
      else
        match findUserByPhoneNumber lookup (JSValue.str s) with
        | Except.ok (some _) => CliOutcome.success
        | Except.ok none => CliOutcome.notFoundExit
        | Except.error _ => CliOutcome.errorExit

/-- Instrumented copy of the findUsersByPhoneNumbers loop that also
counts how many times the loop body invokes findUserByPhoneNumber: each
iteration awaits it exactly once, with no retry on any outcome. -/
def findUsersByPhoneNumbersTraced (lookup : String → Except JsError UserRecord) :
    List JSValue → BatchResult × Nat
  | [] => ({ found := [], notFound := [] }, 0)
  | pn :: rest =>
      let r := findUsersByPhoneNumbersTraced lookup rest
      match findUserByPhoneNumber lookup pn with
      | Except.ok (some u) => ({ found := u :: r.1.found, notFound := r.1.notFound }, r.2 + 1)
      | Except.ok none => ({ found := r.1.found, notFound := pn :: r.1.notFound }, r.2 + 1)
      | Except.error _ => ({ found := r.1.found, notFound := pn :: r.1.notFound }, r.2 + 1)

/-- The class of arguments accepted by the guard on line 16: non-empty
strings. Every other JSValue makes that guard throw. -/
def isNonEmptyString : JSValue → Bool
  | JSValue.str s => !(s == "")
  | _ => false

/-- The per-number outcome the batch loop branches on: some user when
the single lookup resolves to a record, none when it resolves to null
or throws. -/
def lookupHit (lookup : String → Except JsError UserRecord) (pn : JSValue) :
    Option UserRecord :=
  match findUserByPhoneNumber lookup pn with
  | Except.ok (some u) => some u
  | _ => none

/-- Abstract state of the identity-service user store, for the frame
theorem: phone numbers paired with their records. -/
def Store : Type := List (String × UserRecord)

/-- findUserByPhoneNumber with the service state threaded explicitly:
the only service operation the code performs is the lookup call `api`
on line 26; the validation branches never touch the service. -/
def findUserByPhoneNumberS
    (api : Store → String → Store × Except JsError UserRecord)
    (st : Store) : JSValue → Store × Except JsError (Option UserRecord)
  | JSValue.str s =>
      if s = "" then (st, catchUserNotFound (Except.error errNotNonEmptyString))
      else if ¬ startsWithPlus s then (st, catchUserNotFound (Except.error errNotE164))
      else
        let p := api st s
        (p.1, catchUserNotFound p.2)
  | _ => (st, catchUserNotFound (Except.error errNotNonEmptyString))

/-- findUsersByPhoneNumbers with the service state threaded through the
sequential loop. -/
def findUsersByPhoneNumbersS
    (api : Store → String → Store × Except JsError UserRecord)
    (st : Store) : List JSValue → Store × BatchResult
  | [] => (st, { found := [], notFound := [] })
  | pn :: rest =>
      let p := findUserByPhoneNumberS api st pn
      let q := findUsersByPhoneNumbersS api p.1 rest
      match p.2 with
      | Except.ok (some u) => (q.1, { found := u :: q.2.found, notFound := q.2.notFound })
      | Except.ok none => (q.1, { found := q.2.found, notFound := pn :: q.2.notFound })
      | Except.error _ => (q.1, { found := q.2.found, notFound := pn :: q.2.notFound })

/-- getUserDetailsByPhoneNumber with the service state threaded
explicitly. -/
def getUserDetailsByPhoneNumberS
    (api : Store → String → Store × Except JsError UserRecord)
    (st : Store) (v : JSValue) : Store × Except JsError (Option UserDetails) :=
  let p := findUserByPhoneNumberS api st v
  match p.2 with
  | Except.error e => (p.1, Except.error e)
  | Except.ok none => (p.1, Except.ok none)
  | Except.ok (some userRecord) => (p.1, Except.ok (some (shapeUserDetails userRecord)))

/-- Sample record for concrete witnesses. -/
def sampleUser : UserRecord :=
  { uid := "u1"
    email := some "user@example.com"
    phoneNumber := some "+15551234567"
    displayName := some "User One"
    photoURL := none
    emailVerified := true
    disabled := false
    metadata := { creationTime := some "t1", lastSignInTime := some "t2",
                  lastRefreshTime := some "t3" }
    customClaims := none
    providerData := [{ uid := some "p1", displayName := none,
                       email := some "user@example.com", phoneNumber := none,
                       photoURL := none, providerId := some "phone" }] }

/-- Oracle that always resolves with sampleUser. -/
def lookupFound : String → Except JsError UserRecord :=
  fun _ => Except.ok sampleUser

/-- Oracle that always rejects with the documented not-found code. -/
def lookupNotFound : String → Except JsError UserRecord :=
  fun _ => Except.error { message := "no user", code := some userNotFoundCode }

/-- Oracle that always rejects with a different Firebase error code. -/
def lookupInternalError : String → Except JsError UserRecord :=
  fun _ => Except.error { message := "internal", code := some "auth/internal-error" }

/-- A concrete non-mutating service implementation of the lookup call,
for the frame witness. -/
def apiReadOnly : Store → String → Store × Except JsError UserRecord :=
  fun st s => (st, lookupFound s)

/-- A string with a leading + is non-empty. -/
theorem ne_empty_of_startsWith_plus (s : String) (h : startsWithPlus s = true) :
    s ≠ "" := by
  intro h0
  subst h0
  exact absurd h (by decide)

/-- Claim C1: findUserByPhoneNumber resolves to null exactly when the
input passed validation and the remote lookup failed with the code
auth/user-not-found; any error raised inside the try block whose code
differs (including the code-less validation errors) is re-thrown to the
caller unchanged. -/
theorem findUser_null_iff_user_not_found_c1
    (lookup : String → Except JsError UserRecord) (v : JSValue) :
    (findUserByPhoneNumber lookup v = Except.ok none ↔
      ∃ s e, v = JSValue.str s ∧ startsWithPlus s = true ∧
        lookup s = Except.error e ∧ e.code = some userNotFoundCode) ∧
    (∀ e, findUserByPhoneNumberAttempt lookup v = Except.error e →
        e.code ≠ some userNotFoundCode →
        findUserByPhoneNumber lookup v = Except.error e) := by
  constructor
  · constructor
    · intro h
      cases v with
      | str s =>
          by_cases hs : s = ""
          · subst hs
            simp [findUserByPhoneNumber, findUserByPhoneNumberAttempt,
              catchUserNotFound, errNotNonEmptyString, userNotFoundCode] at h
          · by_cases hw : startsWithPlus s = true
            · cases hlk : lookup s with
              | ok u =>
                  simp [findUserByPhoneNumber, findUserByPhoneNumberAttempt,
                    catchUserNotFound, hs, hw, hlk] at h
              | error e =>
                  by_cases hc : e.code = some userNotFoundCode
                  · exact ⟨s, e, rfl, hw, hlk, hc⟩
                  · simp [findUserByPhoneNumber, findUserByPhoneNumberAttempt,
                      catchUserNotFound, hs, hw, hlk, hc] at h
            · simp [findUserByPhoneNumber, findUserByPhoneNumberAttempt,
                catchUserNotFound, hs, hw, errNotE164, userNotFoundCode] at h
      | num n =>
          simp [findUserByPhoneNumber, findUserByPhoneNumberAttempt,
            catchUserNotFound, errNotNonEmptyString, userNotFoundCode] at h
      | boolean b =>
          simp [findUserByPhoneNumber, findUserByPhoneNumberAttempt,
            catchUserNotFound, errNotNonEmptyString, userNotFoundCode] at h
      | jsNull =>
          simp [findUserByPhoneNumber, findUserByPhoneNumberAttempt,
            catchUserNotFound, errNotNonEmptyString, userNotFoundCode] at h
      | undefined =>
          simp [findUserByPhoneNumber, findUserByPhoneNumberAttempt,
            catchUserNotFound, errNotNonEmptyString, userNotFoundCode] at h
    · rintro ⟨s, e, rfl, hw, hlk, hc⟩
      have hs : s ≠ "" := ne_empty_of_startsWith_plus s hw
      simp [findUserByPhoneNumber, findUserByPhoneNumberAttempt,
        catchUserNotFound, hs, hw, hlk, hc]
  · intro e h hne
    simp [findUserByPhoneNumber, h, catchUserNotFound, hne]

/-- Closed instance of the C1 theorem: with an oracle failing with code
auth/internal-error, the call on a valid number re-throws that error. -/
theorem findUser_null_iff_user_not_found_c1_witness :
    findUserByPhoneNumber lookupInternalError (JSValue.str "+15551234567") =
      Except.error { message := "internal", code := some "auth/internal-error" } :=
  (findUser_null_iff_user_not_found_c1 lookupInternalError
      (JSValue.str "+15551234567")).2
    { message := "internal", code := some "auth/internal-error" }
    (by decide) (by decide)

/-- Claim C3: the guards on lines 16-23 run before the remote call:
every value that is not a non-empty string makes the function throw,
every string without a leading + makes it throw, and every string with
a leading + passes validation, the try block reducing to the remote
lookup itself (nothing beyond the + is inspected). -/
theorem findUser_validation_c3
    (lookup : String → Except JsError UserRecord) (v : JSValue) :
    (isNonEmptyString v = false →
        ∃ e, findUserByPhoneNumber lookup v = Except.error e) ∧
    (∀ s, v = JSValue.str s → startsWithPlus s = false →
        ∃ e, findUserByPhoneNumber lookup v = Except.error e) ∧
    (∀ s, v = JSValue.str s → startsWithPlus s = true →
        findUserByPhoneNumberAttempt lookup v = lookup s) := by
  refine ⟨?_, ?_, ?_⟩
  · intro h
    cases v with
    | str s =>
        have hs : s = "" := by
          simpa [isNonEmptyString] using h
        subst hs
        exact ⟨errNotNonEmptyString, by
          simp [findUserByPhoneNumber, findUserByPhoneNumberAttempt,
            catchUserNotFound, errNotNonEmptyString, userNotFoundCode]⟩
    | num n =>
        exact ⟨errNotNonEmptyString, by
          simp [findUserByPhoneNumber, findUserByPhoneNumberAttempt,
            catchUserNotFound, errNotNonEmptyString, userNotFoundCode]⟩
    | boolean b =>
        exact ⟨errNotNonEmptyString, by
          simp [findUserByPhoneNumber, findUserByPhoneNumberAttempt,
            catchUserNotFound, errNotNonEmptyString, userNotFoundCode]⟩
    | jsNull =>
        exact ⟨errNotNonEmptyString, by
          simp [findUserByPhoneNumber, findUserByPhoneNumberAttempt,
            catchUserNotFound, errNotNonEmptyString, userNotFoundCode]⟩
    | undefined =>
        exact ⟨errNotNonEmptyString, by
          simp [findUserByPhoneNumber, findUserByPhoneNumberAttempt,
            catchUserNotFound, errNotNonEmptyString, userNotFoundCode]⟩
  · rintro s rfl hw
    by_cases hs : s = ""
    · subst hs
      exact ⟨errNotNonEmptyString, by
        simp [findUserByPhoneNumber, findUserByPhoneNumberAttempt,
          catchUserNotFound, errNotNonEmptyString, userNotFoundCode]⟩
    · exact ⟨errNotE164, by
        simp [findUserByPhoneNumber, findUserByPhoneNumberAttempt,
          catchUserNotFound, hs, hw, errNotE164, userNotFoundCode]⟩
  · rintro s rfl hw
    have hs : s ≠ "" := ne_empty_of_startsWith_plus s hw
    simp [findUserByPhoneNumberAttempt, hs, hw]

/-- Closed instance of the C3 theorem: the number 0 is rejected, a
string without + is rejected, and a + string reaches the oracle. -/
theorem findUser_validation_c3_witness :
    (∃ e, findUserByPhoneNumber lookupFound (JSValue.num 0) = Except.error e) ∧
    (∃ e, findUserByPhoneNumber lookupFound (JSValue.str "15551234567") =
        Except.error e) ∧
    findUserByPhoneNumberAttempt lookupFound (JSValue.str "+15551234567") =
      lookupFound "+15551234567" :=
  ⟨(findUser_validation_c3 lookupFound (JSValue.num 0)).1 (by decide),
   (findUser_validation_c3 lookupFound (JSValue.str "15551234567")).2.1
     "15551234567" rfl (by decide),
   (findUser_validation_c3 lookupFound (JSValue.str "+15551234567")).2.2
     "+15551234567" rfl (by decide)⟩

/-- The found list of the batch collects, in input order, the records
of the numbers whose single lookup resolves to a user. -/
theorem batch_found_eq (lookup : String → Except JsError UserRecord)
    (l : List JSValue) :
    (findUsersByPhoneNumbers lookup l).found = l.filterMap (lookupHit lookup) := by
  induction l with
  | nil => simp [findUsersByPhoneNumbers]
  | cons pn rest ih =>
      cases hpn : findUserByPhoneNumber lookup pn with
      | ok ou =>
          cases ou with
          | some u => simp [findUsersByPhoneNumbers, hpn, lookupHit, ih]
          | none => simp [findUsersByPhoneNumbers, hpn, lookupHit, ih]
      | error e => simp [findUsersByPhoneNumbers, hpn, lookupHit, ih]

/-- The notFound list of the batch collects, in input order, the
numbers whose single lookup does not resolve to a user. -/
theorem batch_notFound_eq (lookup : String → Except JsError UserRecord)
    (l : List JSValue) :
    (findUsersByPhoneNumbers lookup l).notFound =
      l.filter (fun pn => (lookupHit lookup pn).isNone) := by
  induction l with
  | nil => simp [findUsersByPhoneNumbers]
  | cons pn rest ih =>
      cases hpn : findUserByPhoneNumber lookup pn with
      | ok ou =>
          cases ou with
          | some u => simp [findUsersByPhoneNumbers, hpn, lookupHit, ih, List.filter_cons]
          | none => simp [findUsersByPhoneNumbers, hpn, lookupHit, ih, List.filter_cons]
      | error e => simp [findUsersByPhoneNumbers, hpn, lookupHit, ih, List.filter_cons]

/-- Each input number lands in exactly one of the two output lists. -/
theorem batch_length (lookup : String → Except JsError UserRecord)
    (l : List JSValue) :
    (findUsersByPhoneNumbers lookup l).found.length +
      (findUsersByPhoneNumbers lookup l).notFound.length = l.length := by
  induction l with
  | nil => simp [findUsersByPhoneNumbers]
  | cons pn rest ih =>
      cases hpn : findUserByPhoneNumber lookup pn with
      | ok ou =>
          cases ou with
          | some u =>
              simp only [findUsersByPhoneNumbers, hpn, List.length_cons]
              omega
          | none =>
              simp only [findUsersByPhoneNumbers, hpn, List.length_cons]
              omega
      | error e =>
          simp only [findUsersByPhoneNumbers, hpn, List.length_cons]
          omega

/-- Any input number whose single lookup throws is recorded in the
notFound list of the batch. -/
theorem mem_notFound_of_error (lookup : String → Except JsError UserRecord)
    (pn : JSValue) (e : JsError)
    (herr : findUserByPhoneNumber lookup pn = Except.error e) :
    ∀ l : List JSValue, pn ∈ l →
      pn ∈ (findUsersByPhoneNumbers lookup l).notFound := by
  intro l
  induction l with
  | nil => intro h; simp at h
  | cons q rest ih =>
      intro hmem
      rcases List.mem_cons.mp hmem with h | h
      · subst h
        simp [findUsersByPhoneNumbers, herr]
      · cases hq : findUserByPhoneNumber lookup q with
        | ok ou =>
            cases ou with
            | some u => simpa [findUsersByPhoneNumbers, hq] using ih h
            | none =>
                simp only [findUsersByPhoneNumbers, hq, List.mem_cons]
                exact Or.inr (ih h)
        | error e2 =>
            simp only [findUsersByPhoneNumbers, hq, List.mem_cons]
            exact Or.inr (ih h)

/-- Claim C2: the batch processes the numbers sequentially in input
order and partitions them: found collects, in order, the records of the
numbers whose lookup yields a user, notFound collects, in order, all
the other numbers, and the two lengths sum to the input length. -/
theorem batch_partition_c2 (lookup : String → Except JsError UserRecord)
    (l : List JSValue) :
    (findUsersByPhoneNumbers lookup l).found = l.filterMap (lookupHit lookup) ∧
    (findUsersByPhoneNumbers lookup l).notFound =
      l.filter (fun pn => (lookupHit lookup pn).isNone) ∧
    (findUsersByPhoneNumbers lookup l).found.length +
      (findUsersByPhoneNumbers lookup l).notFound.length = l.length :=
  ⟨batch_found_eq lookup l, batch_notFound_eq lookup l, batch_length lookup l⟩

/-- Claim C4 fails on the code: the catch block of the batch loop
(lines 68-71) swallows every error, not only the not-found code. With
an oracle rejecting with code auth/internal-error, the single lookup on
a valid number re-throws that error, yet the batch over that one number
returns normally, recording the number in notFound instead of letting
the error propagate to its caller. -/
theorem batch_error_swallowed_c4_counterexample :
    findUserByPhoneNumber lookupInternalError (JSValue.str "+15551234567") =
      Except.error { message := "internal", code := some "auth/internal-error" } ∧
    ({ message := "internal", code := some "auth/internal-error" } : JsError).code ≠
      some userNotFoundCode ∧
    findUsersByPhoneNumbers lookupInternalError [JSValue.str "+15551234567"] =
      { found := [], notFound := [JSValue.str "+15551234567"] } :=
  ⟨by decide, by decide, by decide⟩

/-- Claim C4 as amended: an error other than the not-found code raised
by an individual lookup does not propagate out of the batch; the catch
block of the loop records the erroring phone number in notFound and the
batch returns normally. -/
theorem batch_error_recorded_c4 (lookup : String → Except JsError UserRecord)
    (l : List JSValue) (pn : JSValue) (e : JsError)
    (hmem : pn ∈ l)
    (herr : findUserByPhoneNumber lookup pn = Except.error e) :
    pn ∈ (findUsersByPhoneNumbers lookup l).notFound :=
  mem_notFound_of_error lookup pn e herr l hmem

/-- Closed instance of the amended C4 theorem. -/
theorem batch_error_recorded_c4_witness :
    JSValue.str "+15551234567" ∈
      (findUsersByPhoneNumbers lookupInternalError
        [JSValue.str "+15551234567"]).notFound :=
  batch_error_recorded_c4 lookupInternalError [JSValue.str "+15551234567"]
    (JSValue.str "+15551234567")
    { message := "internal", code := some "auth/internal-error" }
    (by simp) (by decide)

/-- Claim C6: the batch never throws; whatever the oracle does it
returns a found / notFound object, and every number whose single lookup
throws (validation error or remote error alike) is recorded in
notFound. -/
theorem batch_total_c6 (lookup : String → Except JsError UserRecord)
    (l : List JSValue) :
    (∃ found notFound, findUsersByPhoneNumbers lookup l =
        { found := found, notFound := notFound }) ∧
    (∀ pn, pn ∈ l →
        (∃ e, findUserByPhoneNumber lookup pn = Except.error e) →
        pn ∈ (findUsersByPhoneNumbers lookup l).notFound) := by
  refine ⟨⟨(findUsersByPhoneNumbers lookup l).found,
    (findUsersByPhoneNumbers lookup l).notFound, rfl⟩, ?_⟩
  rintro pn hmem ⟨e, herr⟩
  exact mem_notFound_of_error lookup pn e herr l hmem

/-- Closed instance of the C6 theorem: a number failing validation is
recorded in notFound even though the single lookup throws on it. -/
theorem batch_total_c6_witness :
    JSValue.str "15551234567" ∈
      (findUsersByPhoneNumbers lookupFound [JSValue.str "15551234567"]).notFound :=
  (batch_total_c6 lookupFound [JSValue.str "15551234567"]).2
    (JSValue.str "15551234567") (by simp) ⟨errNotE164, by decide⟩

/-- Claim C8: the batch terminates on every finite input list (it is a
total function of the list), and the instrumented loop shows it awaits
the single lookup exactly once per input number, with no retry on any
outcome, while computing the same result. -/
theorem batch_one_lookup_per_number_c8 (lookup : String → Except JsError UserRecord)
    (l : List JSValue) :
    (findUsersByPhoneNumbersTraced lookup l).2 = l.length ∧
    (findUsersByPhoneNumbersTraced lookup l).1 = findUsersByPhoneNumbers lookup l := by
  induction l with
  | nil => exact ⟨rfl, rfl⟩
  | cons pn rest ih =>
      obtain ⟨ih1, ih2⟩ := ih
      cases hpn : findUserByPhoneNumber lookup pn with
      | ok ou =>
          cases ou with
          | some u =>
              simp [findUsersByPhoneNumbersTraced, findUsersByPhoneNumbers,
                hpn, ih1, ih2]
          | none =>
              simp [findUsersByPhoneNumbersTraced, findUsersByPhoneNumbers,
                hpn, ih1, ih2]
      | error e =>
          simp [findUsersByPhoneNumbersTraced, findUsersByPhoneNumbers,
            hpn, ih1, ih2]

/-- Claim C5: getUserDetailsByPhoneNumber returns null exactly when the
lookup resolves to null, and on a found record returns the plain object
copying uid, email, phoneNumber, displayName, photoURL, emailVerified,
disabled, the three metadata times, customClaims (defaulted when
absent), and providerData mapped element-wise to six-field objects. -/
theorem details_shape_c5 (lookup : String → Except JsError UserRecord)
    (v : JSValue) :
    (getUserDetailsByPhoneNumber lookup v = Except.ok none ↔
      findUserByPhoneNumber lookup v = Except.ok none) ∧
    (∀ u, findUserByPhoneNumber lookup v = Except.ok (some u) →
      getUserDetailsByPhoneNumber lookup v = Except.ok (some
        { uid := u.uid
          email := u.email
          phoneNumber := u.phoneNumber
          displayName := u.displayName
          photoURL := u.photoURL
          emailVerified := u.emailVerified
          disabled := u.disabled
          metadata := { creationTime := u.metadata.creationTime
                        lastSignInTime := u.metadata.lastSignInTime
                        lastRefreshTime := u.metadata.lastRefreshTime }
          customClaims := u.customClaims.getD []
          providerData := u.providerData.map (fun p =>
            { uid := p.uid
              displayName := p.displayName
              email := p.email
              phoneNumber := p.phoneNumber
              photoURL := p.photoURL
              providerId := p.providerId }) })) := by
  constructor
  · cases h : findUserByPhoneNumber lookup v with
    | ok ou =>
        cases ou with
        | some u => simp [getUserDetailsByPhoneNumber, h]
        | none => simp [getUserDetailsByPhoneNumber, h]
    | error e => simp [getUserDetailsByPhoneNumber, h]
  · intro u hu
    simp [getUserDetailsByPhoneNumber, hu, shapeUserDetails]

/-- Closed instance of the C5 theorem on the sample record. -/
theorem details_shape_c5_witness :
    getUserDetailsByPhoneNumber lookupFound (JSValue.str "+15551234567") =
      Except.ok (some (shapeUserDetails sampleUser)) :=
  (details_shape_c5 lookupFound (JSValue.str "+15551234567")).2
    sampleUser (by decide)

/-- Claim C7: the CLI reads the single positional argument argv[2];
with no argument it prints usage and exits with code 1; a null result
or an error from the lookup exits with code 1; a found user reports
success and exits normally (code 0). -/
theorem cli_one_argument_c7 (lookup : String → Except JsError UserRecord)
    (argv2 : Option String) :
    (argv2 = none → runCli lookup argv2 = CliOutcome.usage ∧
        cliExitCode (runCli lookup argv2) = 1) ∧
    (∀ s, argv2 = some s → s ≠ "" →
      ((∀ u, findUserByPhoneNumber lookup (JSValue.str s) = Except.ok (some u) →
          runCli lookup argv2 = CliOutcome.success ∧
          cliExitCode (runCli lookup argv2) = 0) ∧
       (findUserByPhoneNumber lookup (JSValue.str s) = Except.ok none →
          cliExitCode (runCli lookup argv2) = 1) ∧
       (∀ e, findUserByPhoneNumber lookup (JSValue.str s) = Except.error e →
          cliExitCode (runCli lookup argv2) = 1))) := by
  constructor
  · rintro rfl
    exact ⟨rfl, rfl⟩
  · rintro s rfl hs
    refine ⟨?_, ?_, ?_⟩
    · intro u hu
      simp [runCli, hs, hu, cliExitCode]
    · intro hn
      simp [runCli, hs, hn, cliExitCode]
    · intro e he
      simp [runCli, hs, he, cliExitCode]

/-- Closed instance of the C7 theorem: a found user gives a success
outcome with exit code 0. -/
theorem cli_one_argument_c7_witness :
    runCli lookupFound (some "+15551234567") = CliOutcome.success ∧
    cliExitCode (runCli lookupFound (some "+15551234567")) = 0 :=
  ((cli_one_argument_c7 lookupFound (some "+15551234567")).2
    "+15551234567" rfl (by decide)).1 sampleUser (by decide)

/-- The statewise single lookup leaves the service state unchanged when
the lookup call itself is a pure read. -/
theorem findUserS_state_eq
    (api : Store → String → Store × Except JsError UserRecord)
    (hread : ∀ st s, (api st s).1 = st) (st : Store) (v : JSValue) :
    (findUserByPhoneNumberS api st v).1 = st := by
  cases v with
  | str s =>
      by_cases hs : s = ""
      · simp [findUserByPhoneNumberS, hs]
      · by_cases hw : startsWithPlus s = true
        · simp [findUserByPhoneNumberS, hs, hw, hread]
        · simp [findUserByPhoneNumberS, hs, hw]
  | num n => rfl
  | boolean b => rfl
  | jsNull => rfl
  | undefined => rfl

/-- The statewise batch leaves the service state unchanged when the
lookup call is a pure read. -/
theorem findUsersS_state_eq
    (api : Store → String → Store × Except JsError UserRecord)
    (hread : ∀ st s, (api st s).1 = st) :
    ∀ (l : List JSValue) (st : Store),
      (findUsersByPhoneNumbersS api st l).1 = st := by
  intro l
  induction l with
  | nil => intro st; rfl
  | cons pn rest ih =>
      intro st
      have h1 : (findUserByPhoneNumberS api st pn).1 = st :=
        findUserS_state_eq api hread st pn
      cases hp2 : (findUserByPhoneNumberS api st pn).2 with
      | ok ou =>
          cases ou with
          | some u => simp [findUsersByPhoneNumbersS, hp2, h1, ih]
          | none => simp [findUsersByPhoneNumbersS, hp2, h1, ih]
      | error e => simp [findUsersByPhoneNumbersS, hp2, h1, ih]

/-- Claim C9: the three operations are read-only with respect to the
identity-service user store: since the one service call the module
performs (getUserByPhoneNumber) does not change the store, each
operation returns the store exactly as it found it. -/
theorem operations_read_only_c9
    (api : Store → String → Store × Except JsError UserRecord)
    (hread : ∀ st s, (api st s).1 = st)
    (st : Store) (v : JSValue) (l : List JSValue) :
    (findUserByPhoneNumberS api st v).1 = st ∧
    (findUsersByPhoneNumbersS api st l).1 = st ∧
    (getUserDetailsByPhoneNumberS api st v).1 = st := by
  refine ⟨findUserS_state_eq api hread st v, findUsersS_state_eq api hread l st, ?_⟩
  have h1 : (findUserByPhoneNumberS api st v).1 = st :=
    findUserS_state_eq api hread st v
  cases hp2 : (findUserByPhoneNumberS api st v).2 with
  | ok ou =>
      cases ou with
      | some u => simp [getUserDetailsByPhoneNumberS, hp2, h1]
      | none => simp [getUserDetailsByPhoneNumberS, hp2, h1]
  | error e => simp [getUserDetailsByPhoneNumberS, hp2, h1]

/-- Closed instance of the C9 theorem on a concrete read-only service
and a one-element store. -/
theorem operations_read_only_c9_witness :
    (findUserByPhoneNumberS apiReadOnly [("+15551234567", sampleUser)]
        (JSValue.str "+15551234567")).1 = [("+15551234567", sampleUser)] ∧
    (findUsersByPhoneNumbersS apiReadOnly [("+15551234567", sampleUser)]
        [JSValue.str "+15551234567", JSValue.num 0]).1 =
      [("+15551234567", sampleUser)] ∧
    (getUserDetailsByPhoneNumberS apiReadOnly [("+15551234567", sampleUser)]
        (JSValue.str "+15551234567")).1 = [("+15551234567", sampleUser)] :=
  operations_read_only_c9 apiReadOnly (fun _ _ => rfl)
    [("+15551234567", sampleUser)] (JSValue.str "+15551234567")
    [JSValue.str "+15551234567", JSValue.num 0]

/-- Claim C10: when the found record carries no customClaims, the
shaped details object holds the empty object for customClaims. -/
theorem details_customClaims_default_c10
    (lookup : String → Except JsError UserRecord) (v : JSValue) (u : UserRecord)
    (h : findUserByPhoneNumber lookup v = Except.ok (some u))
    (hc : u.customClaims = none) :
    getUserDetailsByPhoneNumber lookup v =
      Except.ok (some (shapeUserDetails u)) ∧
    (shapeUserDetails u).customClaims = [] := by
  constructor
  · simp [getUserDetailsByPhoneNumber, h]
  · simp [shapeUserDetails, hc]

/-- Closed instance of the C10 theorem: sampleUser has no customClaims,
so its shaped details carry the empty object. -/
theorem details_customClaims_default_c10_witness :
    getUserDetailsByPhoneNumber lookupFound (JSValue.str "+15551234567") =
      Except.ok (some (shapeUserDetails sampleUser)) ∧
    (shapeUserDetails sampleUser).customClaims = [] :=
  details_customClaims_default_c10 lookupFound (JSValue.str "+15551234567")
    sampleUser (by decide) rfl

end FirebaseSearch
